import Mathlib

/-!
Verification development for the `test-tool` plugin repository.

The repository contains two plugins:
* `test_tool_rest_plugin/main.py` — an HTTP request/response assertion engine
  (`augment_rest_call`, `assert_response`, `make_rest_call`);
* `test_tool_copy_files_ssh_plugin/main.py` — an SSH/SFTP file transfer adapter
  (`augment_copy_files_ssh_call`, `run_with_ssh_client`, `copy_remote_file`,
  `download_directory`, `make_copy_files_ssh_call`).

The Python data values flowing through the plugins (parsed JSON bodies, raw
configuration mappings, header dictionaries, multipart tuples, opened file
handles) are modelled by the inductive type `PyVal`.  Python dictionaries are
modelled as association lists with string keys (every dictionary occurring in
the plugins is keyed by strings); Python `dict` equality is order-insensitive,
which `pyEq` reflects.  External effects (the HTTP transport, the filesystem,
the SSH transport, logging) are modelled as explicit parameters or recorded
operation traces.
-/

set_option autoImplicit false

namespace TestTool

/-- The HTTP method enumeration (`Method` in the source). -/
inductive Method where
  | POST
  | GET
  | PUT
  | DELETE
deriving Repr, DecidableEq

/-- The expected response type enumeration (named `Type` in the source;
renamed because `Type` is a universe in Lean). -/
inductive RType where
  | XML
  | JSON
  | TEXT
deriving Repr, DecidableEq

/-- A Python value as it occurs in the plugins: `None`, `bool`, `int`, `str`,
`list`, `dict` (string-keyed association list, insertion ordered), `tuple`,
an opened file handle (`open(path, mode)`), and the two enumerations
`Method` / `Type` that augmentation writes back into the call mapping. -/
inductive PyVal where
  | vnone
  | vbool (b : Bool)
  | vint (n : Int)
  | vstr (s : String)
  | vlist (xs : List PyVal)
  | vdict (m : List (String × PyVal))
  | vtuple (xs : List PyVal)
  | vfile (path : String) (mode : String)
  | vmethod (m : Method)
  | vrtype (t : RType)

/-- `d[k]` as a total lookup: first entry with the given key (Python
dictionaries have unique keys; association lists generalize that). -/
def dictLookup (m : List (String × PyVal)) (k : String) : Option PyVal :=
  match m with
  | [] => none
  | (k', v) :: rest => if k' == k then some v else dictLookup rest k

/-- `d[k] = v`: replace the first entry with the given key in place (Python
keeps the original insertion position), append if the key is absent. -/
def setKey (m : List (String × PyVal)) (k : String) (v : PyVal) :
    List (String × PyVal) :=
  match m with
  | [] => [(k, v)]
  | (k', v') :: rest => if k' == k then (k, v) :: rest else (k', v') :: setKey rest k v

/-- `del d[k]`: `none` models the `KeyError` Python raises when the key is
absent; otherwise the first entry with the key is removed. -/
def delKey (m : List (String × PyVal)) (k : String) :
    Option (List (String × PyVal)) :=
  match m with
  | [] => none
  | (k', v') :: rest =>
    if k' == k then some rest
    else match delKey rest k with
      | some rest' => some ((k', v') :: rest')
      | none => none

/-- Every key of `b` occurs in `a`. -/
def dictHasKeys (b a : List (String × PyVal)) : Bool :=
  b.all (fun kv => (dictLookup a kv.1).isSome)

mutual

/-- Python `==` on the modelled values: `None == None`; `bool`/`int` compare
across each other (`True == 1`); strings compare as strings; lists and tuples
compare elementwise in order; dictionaries compare order-insensitively (same
keys, equal values per key).  File handles compare by identity in Python;
distinct handles never compare equal in the plugins, and the comparison is
never reached on handles, so structural comparison is harmless here. -/
def pyEq : PyVal → PyVal → Bool
  | .vnone, .vnone => true
  | .vbool a, .vbool b => a == b
  | .vbool a, .vint n => (if a then (1 : Int) else 0) == n
  | .vint n, .vbool a => n == (if a then (1 : Int) else 0)
  | .vint a, .vint b => a == b
  | .vstr a, .vstr b => a == b
  | .vlist a, .vlist b => pyEqList a b
  | .vtuple a, .vtuple b => pyEqList a b
  | .vdict a, .vdict b => pyEqDictSub a b && dictHasKeys b a
  | .vfile p a, .vfile q b => p == q && a == b
  | .vmethod a, .vmethod b => a == b
  | .vrtype a, .vrtype b => a == b
  | _, _ => false

/-- Elementwise Python `==` on lists. -/
def pyEqList : List PyVal → List PyVal → Bool
  | [], [] => true
  | a :: as', b :: bs => pyEq a b && pyEqList as' bs
  | _, _ => false

/-- Every entry of the first dictionary has an equal value under the same key
in the second. -/
def pyEqDictSub : List (String × PyVal) → List (String × PyVal) → Bool
  | [], _ => true
  | (k, v) :: rest, b =>
    (match dictLookup b k with
     | some w => pyEq v w
     | none => false) && pyEqDictSub rest b

end

/-- Python truthiness of the modelled values (`if x:`). -/
def pyTruthy : PyVal → Bool
  | .vnone => false
  | .vbool b => b
  | .vint n => n != 0
  | .vstr s => !s.isEmpty
  | .vlist xs => !xs.isEmpty
  | .vdict m => !m.isEmpty
  | .vtuple xs => !xs.isEmpty
  | _ => true

/-- JSON string escaping as `json.dumps` performs it for the characters the
plugins can feed it (quote, backslash, newline, carriage return, tab). -/
def escapeJson (s : String) : String :=
  s.foldl
    (fun acc c =>
      if c = '"' then acc ++ "\\\""
      else if c = '\\' then acc ++ "\\\\"
      else if c = '\n' then acc ++ "\\n"
      else if c = '\r' then acc ++ "\\r"
      else if c = '\t' then acc ++ "\\t"
      else acc.push c)
    ""

mutual

/-- `json.dumps` with default separators.  Handles and enumeration values are
not JSON serializable (the real `dumps` raises `TypeError`); they never occur
in the data the plugins serialize, and are mapped to `null` here. -/
def dumps : PyVal → String
  | .vnone => "null"
  | .vbool b => if b then "true" else "false"
  | .vint n => toString n
  | .vstr s => "\"" ++ escapeJson s ++ "\""
  | .vlist xs => "[" ++ dumpsList xs ++ "]"
  | .vtuple xs => "[" ++ dumpsList xs ++ "]"
  | .vdict m => "\x7b" ++ dumpsDict m ++ "\x7d"
  | .vfile _ _ => "null"
  | .vmethod _ => "null"
  | .vrtype _ => "null"

def dumpsList : List PyVal → String
  | [] => ""
  | [x] => dumps x
  | x :: xs => dumps x ++ ", " ++ dumpsList xs

def dumpsDict : List (String × PyVal) → String
  | [] => ""
  | [(k, v)] => "\"" ++ escapeJson k ++ "\": " ++ dumps v
  | (k, v) :: m => "\"" ++ escapeJson k ++ "\": " ++ dumps v ++ ", " ++ dumpsDict m

end

/-- Exceptions the plugins raise or propagate. -/
inductive AssertMsg where
  /-- A bare `assert` with no message. -/
  | noMsg
  /-- `Key "k": "expected" not equal to "actual".` -/
  | keyNotEqual (k : String) (expected actual : PyVal)
  /-- `Key "k" not found in response.` -/
  | keyNotFound (k : String)

inductive PyError where
  | assertionError (m : AssertMsg)
  | valueError (msg : String)
  | keyError (k : String)
  | typeError (msg : String)
  | attributeError (attr : String)
  | jsonDecodeError
  | fileNotFoundError

/-- A client certificate (`Cert` in the source), after augmentation. -/
structure Cert where
  path : String
  key : Option String
deriving Repr, DecidableEq

/-- An assertion (`Assertion` in the source), after augmentation: `value` is a
string, mapping or sequence (augmentation enforces string-or-mapping);
`only_defined` has been defaulted to `False` when absent. -/
structure Assertion where
  value : PyVal
  only_defined : Bool

/-- The assertion as the Python dictionary `call["assertion"]` it really is:
`assert_response` compares parsed response bodies against this whole mapping
in its `only_defined=False` and sequence branches. -/
def assertionAsPy (a : Assertion) : PyVal :=
  .vdict [("value", a.value), ("only_defined", .vbool a.only_defined)]

/-- A rest call (`RestCall` in the source) with the field types the code's
annotations promise after `augment_rest_call` ran. -/
structure RestCall where
  base_url : String
  path : String
  url : String
  method : Method
  data : Option PyVal
  files : Option (List (String × PyVal))
  multipart : Option (List (String × PyVal))
  timeout : Int
  headers : List (String × PyVal)
  verify : Bool
  cert : Option Cert
  response_type : RType
  assertion : Option Assertion
  hide_logs : Bool
  status_codes : List Int

/-- What the transport returns for the one request of a call: the status code,
the body text, and the parsed JSON body (`none` models `response.json()`
raising `JSONDecodeError`). -/
structure HttpResponse where
  status_code : Int
  text : String
  json : Option PyVal

/-- The keyword arguments `assert_response` hands to the transport
(`get`/`post`/`put`/`delete`).  `timeout` records the effective request
timeout: the dispatch expressions pass the literal `timeout=10`. -/
structure RequestRecord where
  url : String
  method : Method
  timeout : Int
  headers : List (String × PyVal)
  files : Option (List (String × PyVal))
  body : Option String
  verify : Bool

/-- `if call["multipart"]:` followed by merging the multipart entries into
`call["files"]` (creating the dictionary when it is `None`).  This mutates the
call in place in the source. -/
def mergeMultipart (call : RestCall) : RestCall :=
  match call.multipart with
  | some mp =>
    if mp.isEmpty then call
    else
      { call with
        files := some (mp.foldl (fun acc kv => setKey acc kv.1 kv.2) (call.files.getD [])) }
  | none => call

/-- `if call["files"]:` — truthiness of an optional dictionary. -/
def filesTruthy (f : Option (List (String × PyVal))) : Bool :=
  match f with
  | some l => !l.isEmpty
  | none => false

/-- The request-construction phase of `assert_response` (source lines
213-270): merge multipart into files; if files are truthy put them into the
keyword arguments and execute `del data["headers"]["Content-Type"]` (the
`KeyError` on an absent key is modelled by `delKey` returning `none`; the
deletion acts on `call["headers"]` itself, which the kwargs alias); otherwise
serialize `call["data"]` when it is not `None`; add `timeout` to the keyword
arguments when truthy — the dispatch expressions already pass `timeout=10`
positionally-by-keyword, so a `timeout` entry in the keyword arguments makes
the call expression raise `TypeError` before any request is sent.  On success
the mutated call and the dispatched request are returned.

`finishRequest` is the tail of the phase shared by all branches: the timeout
keyword argument (source lines 240-241) and the dispatch expression with its
hard-coded `timeout=10` (source lines 262-270). -/
def finishRequest (call : RestCall) (files : Option (List (String × PyVal)))
    (body : Option String) : Except PyError (RestCall × RequestRecord) :=
  if call.timeout != 0 then
    Except.error (PyError.typeError "got multiple values for keyword argument timeout")
  else
    Except.ok (call,
      { url := call.url, method := call.method, timeout := 10,
        headers := call.headers, files := files, body := body,
        verify := call.verify : RequestRecord })

/-- The branching part of the request-construction phase (source lines
224-244): merge multipart into files, then either pass the files (deleting
the `Content-Type` header in place) or serialize the data payload. -/
def buildRequest (call : RestCall) : Except PyError (RestCall × RequestRecord) :=
  let call := mergeMultipart call
  if filesTruthy call.files then
    match delKey call.headers "Content-Type" with
    | none => Except.error (PyError.keyError "Content-Type")
    | some headers' =>
      let call := { call with headers := headers' }
      finishRequest call call.files none
  else
    match call.data with
    | some d => finishRequest call none (some (dumps d))
    | none => finishRequest call none none

/-- The `only_defined=True` loop of `assert_response` (source lines 289-297):
for each declared key, in order, look the key up in the parsed response body
(the lookup happens first, inside the message construction, so an absent key
raises `KeyError`, caught and turned into the named assertion failure) and
compare values with Python `==`. -/
def onlyDefinedCheck (items : List (String × PyVal))
    (body : List (String × PyVal)) : Except PyError Unit :=
  match items with
  | [] => Except.ok ()
  | (k, v) :: rest =>
    match dictLookup body k with
    | none => Except.error (PyError.assertionError (AssertMsg.keyNotFound k))
    | some w =>
      if pyEq w v then onlyDefinedCheck rest body
      else Except.error (PyError.assertionError (AssertMsg.keyNotEqual k v w))

/-- The body-assertion phase of `assert_response` (source lines 282-307),
dispatching on the runtime type of `call["assertion"]["value"]`.  Note that
the `only_defined=False` mapping branch and the sequence branch compare
`response.json()` against `call["assertion"]` — the whole assertion
dictionary — not against `call["assertion"]["value"]`. -/
def bodyAssert (a : Assertion) (resp : HttpResponse) : Except PyError Unit :=
  match a.value with
  | .vstr s =>
    if resp.text == s then Except.ok ()
    else Except.error (PyError.assertionError AssertMsg.noMsg)
  | .vdict items =>
    if a.only_defined then
      match resp.json with
      | none => Except.error PyError.jsonDecodeError
      | some body =>
        match body with
        | .vdict bm => onlyDefinedCheck items bm
        | _ => Except.error (PyError.assertionError AssertMsg.noMsg)
    else
      match resp.json with
      | none => Except.error PyError.jsonDecodeError
      | some body =>
        if pyEq body (assertionAsPy a) then Except.ok ()
        else Except.error (PyError.assertionError AssertMsg.noMsg)
  | .vlist _ =>
    match resp.json with
    | none => Except.error PyError.jsonDecodeError
    | some body =>
      if pyEq body (assertionAsPy a) then Except.ok ()
      else Except.error (PyError.assertionError AssertMsg.noMsg)
  | _ =>
    -- `error(f'Assertion type ... not supported yet.')` followed by a bare
    -- `assert False`.
    Except.error (PyError.assertionError AssertMsg.noMsg)

/-- `assert_response` (source lines 199-307): build and dispatch the request,
assert the status code is among the accepted ones, then run the body
assertion when one is configured.  The transport's answer is the `resp`
parameter; the mutated call and the dispatched request are returned so that
the mutation and the outgoing headers are observable. -/
def assert_response (call : RestCall) (resp : HttpResponse) :
    Except PyError (RestCall × RequestRecord) :=
  match buildRequest call with
  | Except.error e => Except.error e
  | Except.ok (call, req) =>
    if call.status_codes.contains resp.status_code then
      match call.assertion with
      | none => Except.ok (call, req)
      | some a =>
        match bodyAssert a resp with
        | Except.ok _ => Except.ok (call, req)
        | Except.error e => Except.error e
    else Except.error (PyError.assertionError AssertMsg.noMsg)

/-- `make_rest_call` (source lines 310-339): run `assert_response`; catch
`AssertionError` only.  Inside the handler, when `call["assertion"]` is not
`None`, the expected value is rendered with the response-type pretty printer
and logged, and `raise e` re-raises the original failure; when the assertion
is `None` the handler body is skipped and — because `raise e` sits inside the
`if` — the exception is swallowed and the function returns normally.  The
rendering itself is a logging effect (and for `Type.XML` the external DOM
parser would reject the non-XML `str(call["assertion"])`); it is not modelled
because no claim depends on the log content. -/
def make_rest_call (call : RestCall) (resp : HttpResponse) : Except PyError Unit :=
  match assert_response call resp with
  | Except.ok _ => Except.ok ()
  | Except.error (PyError.assertionError m) =>
    match call.assertion with
    | some _ => Except.error (PyError.assertionError m)
    | none => Except.ok ()
  | Except.error e => Except.error e

/-! ### Augmentation of a raw rest call

`augment_rest_call` runs before execution on the raw configuration mapping,
whose fields may have any Python type; they are therefore all `PyVal`. -/

/-- The raw configuration mapping handed to `augment_rest_call`, one field per
key of the `RestCall` TypedDict. -/
structure RawRestCall where
  base_url : PyVal
  path : PyVal
  url : PyVal
  method : PyVal
  data : PyVal
  files : PyVal
  multipart : PyVal
  timeout : PyVal
  headers : PyVal
  verify : PyVal
  cert : PyVal
  response_type : PyVal
  assertion : PyVal
  hide_logs : PyVal
  status_codes : PyVal

/-- `v is None`. -/
def isPyNone : PyVal → Bool
  | .vnone => true
  | _ => false

/-- `isinstance(v, str)`. -/
def isPyStr : PyVal → Bool
  | .vstr _ => true
  | _ => false

/-- `isinstance(v, int)` — `bool` is a subclass of `int` in Python. -/
def isPyInt : PyVal → Bool
  | .vint _ => true
  | .vbool _ => true
  | _ => false

/-- `isinstance(v, bool)`. -/
def isPyBool : PyVal → Bool
  | .vbool _ => true
  | _ => false

/-- `isinstance(v, dict)`. -/
def isPyDict : PyVal → Bool
  | .vdict _ => true
  | _ => false

/-- `base.joinpath(p)` on POSIX paths: an absolute argument replaces the
base. -/
def pyJoinPath (base p : String) : String :=
  if p.startsWith "/" then p else base ++ "/" ++ p

/-- One iteration of the `# Files` loop of `augment_rest_call` (source lines
383-397): a declared file must be a mapping; its `binary` flag picks the open
mode, the file is opened relative to the project path (the filesystem open is
an external effect, modelled as constructing the handle value), and the entry
is replaced by the `(path, handle, media)` triple.  Missing `binary`/`path`/
`media` keys raise `KeyError`; `joinpath` on a non-string path raises
`TypeError`. -/
def augmentFile (projectPath : String) (f : PyVal) : Except PyError PyVal :=
  match f with
  | .vdict m =>
    match dictLookup m "binary" with
    | none => Except.error (PyError.keyError "binary")
    | some b =>
      let mode := if pyTruthy b then "rb" else "r"
      match dictLookup m "path" with
      | none => Except.error (PyError.keyError "path")
      | some (.vstr p) =>
        match dictLookup m "media" with
        | none => Except.error (PyError.keyError "media")
        | some media =>
          Except.ok (.vtuple [.vstr p, .vfile (pyJoinPath projectPath p) mode, media])
      | some _ => Except.error (PyError.typeError "argument should be a str or an os.PathLike object")
  | _ => Except.error (PyError.valueError "File is not a dict.")

/-- The `# Files` loop over all declared files, in order. -/
def augmentFiles (projectPath : String) :
    List (String × PyVal) → Except PyError (List (String × PyVal))
  | [] => Except.ok []
  | (k, f) :: rest =>
    match augmentFile projectPath f with
    | Except.error e => Except.error e
    | Except.ok f' =>
      match augmentFiles projectPath rest with
      | Except.error e => Except.error e
      | Except.ok rest' => Except.ok ((k, f') :: rest')

/-- The `# Multipart` loop (source lines 399-401): each declared part becomes
the tuple `(None, dumps(part), "application/json")`. -/
def augmentMultipart (mp : List (String × PyVal)) : List (String × PyVal) :=
  mp.map (fun kv => (kv.1, .vtuple [.vnone, .vstr (dumps kv.2), .vstr "application/json"]))

/-- The `# Cert` block (source lines 422-433): `call["cert"]["path"]` must
exist and not be `None` (else `ValueError`); both branches of the
`is_absolute` test run the same `path.joinpath`; a `key`, when not `None`,
must be a string.  Indexing a non-mapping cert raises `TypeError`; an absent
`key` entry raises `KeyError`. -/
def augmentCert (projectPath : String) (c : PyVal) : Except PyError PyVal :=
  match c with
  | .vdict m =>
    match dictLookup m "path" with
    | none => Except.error (PyError.keyError "path")
    | some .vnone => Except.error (PyError.valueError "Cert path is requiered for cert.")
    | some (.vstr p) =>
      let m1 := setKey m "path" (.vstr (pyJoinPath projectPath p))
      match dictLookup m1 "key" with
      | none => Except.error (PyError.keyError "key")
      | some .vnone => Except.ok (.vdict m1)
      | some (.vstr _) => Except.ok (.vdict m1)
      | some _ => Except.error (PyError.valueError "Cert key must be a string.")
    | some _ => Except.error (PyError.typeError "argument should be a str or an os.PathLike object")
  | _ => Except.error (PyError.typeError "cert is not subscriptable with string keys")

/-- The `# Assertion` block (source lines 444-465): a non-`None` assertion
must be a mapping; `only_defined` is defaulted to `False` when absent or
`None` and must otherwise be a boolean; `value` must exist, not be `None`,
and be a string or a mapping — any other type (in particular a sequence) is
rejected with `ValueError("Assertion must be a string or a dict.")`. -/
def augmentAssertion (a : PyVal) : Except PyError PyVal :=
  match a with
  | .vnone => Except.ok .vnone
  | .vdict m =>
    let step1 :=
      match dictLookup m "only_defined" with
      | some .vnone => Except.ok (setKey m "only_defined" (.vbool false))
      | none => Except.ok (setKey m "only_defined" (.vbool false))
      | some v =>
        if isPyBool v then Except.ok m
        else Except.error (PyError.valueError "Only defined must be a boolean.")
    match step1 with
    | Except.error e => Except.error e
    | Except.ok m1 =>
      match dictLookup m1 "value" with
      | none => Except.error (PyError.valueError "Assertion value is requiered.")
      | some .vnone => Except.error (PyError.valueError "Assertion value is requiered.")
      | some (.vstr _) => Except.ok (.vdict m1)
      | some (.vdict _) => Except.ok (.vdict m1)
      | some _ => Except.error (PyError.valueError "Assertion must be a string or a dict.")
  | _ => Except.error (PyError.valueError "Assertion must be a dict.")

/-- The `# Status codes` block (source lines 472-477). -/
def augmentStatusCodes : PyVal → Except PyError PyVal
  | .vlist xs =>
    if xs.all isPyInt then Except.ok (.vlist xs)
    else Except.error (PyError.valueError "Status codes must be integers.")
  | _ => Except.error (PyError.valueError "Status codes must be a list.")

/-- `Method[s]` — enumeration lookup by member name. -/
def methodOfString : String → Option Method
  | "POST" => some Method.POST
  | "GET" => some Method.GET
  | "PUT" => some Method.PUT
  | "DELETE" => some Method.DELETE
  | _ => none

/-- `Type[s]` — enumeration lookup by member name. -/
def rtypeOfString : String → Option RType
  | "XML" => some RType.XML
  | "JSON" => some RType.JSON
  | "TEXT" => some RType.TEXT
  | _ => none

/-- `augment_rest_call` (source lines 342-477), block by block in source
order.  Iterating `.items()` of a non-mapping, non-`None` `files` or
`multipart` field raises `AttributeError`. -/
def augment_rest_call (call : RawRestCall) (path : String) :
    Except PyError RawRestCall :=
  match call.base_url with
  | .vstr baseUrl =>
    match call.path with
    | .vstr p =>
      let urlStep :=
        match call.url with
        | .vnone => Except.ok (PyVal.vstr (baseUrl ++ p))
        | .vstr s => Except.ok (PyVal.vstr s)
        | _ => Except.error (PyError.valueError "URL must be a string.")
      match urlStep with
      | Except.error e => Except.error e
      | Except.ok url =>
        match call.method with
        | .vstr ms =>
          match methodOfString ms with
          | none => Except.error (PyError.valueError "Method is not supported.")
          | some method =>
            let filesStep :=
              match call.files with
              | .vnone => Except.ok PyVal.vnone
              | .vdict m =>
                match augmentFiles path m with
                | Except.error e => Except.error e
                | Except.ok m' => Except.ok (PyVal.vdict m')
              | _ => Except.error (PyError.attributeError "items")
            match filesStep with
            | Except.error e => Except.error e
            | Except.ok files =>
              let multipartStep :=
                match call.multipart with
                | .vnone => Except.ok PyVal.vnone
                | .vdict m => Except.ok (PyVal.vdict (augmentMultipart m))
                | _ => Except.error (PyError.attributeError "items")
              match multipartStep with
              | Except.error e => Except.error e
              | Except.ok multipart =>
                if !isPyInt call.timeout then
                  Except.error (PyError.valueError "Timeout must be an integer, set 0 to disable.")
                else if isPyNone call.headers then
                  Except.error (PyError.valueError "Headers are requiered.")
                else if !isPyDict call.headers then
                  Except.error (PyError.valueError "Headers must be a dict.")
                else if !isPyBool call.verify then
                  Except.error (PyError.valueError "Verify must be a boolean.")
                else
                  let certStep :=
                    match call.cert with
                    | .vnone => Except.ok PyVal.vnone
                    | c => augmentCert path c
                  match certStep with
                  | Except.error e => Except.error e
                  | Except.ok cert =>
                    match call.response_type with
                    | .vstr ts =>
                      match rtypeOfString ts with
                      | none => Except.error (PyError.valueError "Response type is not supported.")
                      | some rt =>
                        match augmentAssertion call.assertion with
                        | Except.error e => Except.error e
                        | Except.ok assertion =>
                          if !isPyBool call.hide_logs then
                            Except.error (PyError.valueError "Hide logs must be a boolean.")
                          else
                            match augmentStatusCodes call.status_codes with
                            | Except.error e => Except.error e
                            | Except.ok statusCodes =>
                              Except.ok
                                { call with
                                  url := url,
                                  method := .vmethod method,
                                  files := files,
                                  multipart := multipart,
                                  cert := cert,
                                  response_type := .vrtype rt,
                                  assertion := assertion,
                                  status_codes := statusCodes }
                    | _ => Except.error (PyError.valueError "Response type must be a string.")
        | _ => Except.error (PyError.valueError "Method must be a string.")
    | _ => Except.error (PyError.valueError "Path must be a string.")
  | _ => Except.error (PyError.valueError "Base URL must be a string.")

/-! ### SSH/SFTP plugin

External transport and filesystem effects are recorded as a trace of
operations; their outcomes are supplied by an environment of result
oracles. -/

/-- Operations performed against the SSH client, the SFTP session, and the
local filesystem, in the order they are issued. -/
inductive SshOp where
  | createClient
  | setPolicy
  | connect
  | openSftp
  | closeSftp
  | statRemote (p : String)
  | mkdirRemote (p : String)
  | listRemote (p : String)
  | mkdirLocal (p : String)
  | putFile (src dst : String)
  | getFile (src dst : String)
  | closeClient
deriving Repr, DecidableEq

/-- A listing entry of a remote directory (`sftp.listdir_attr`): the name and,
via the `st_mode` directory bit, whether it is itself a directory with its own
listing. -/
inductive RemoteEntry where
  | rfile (name : String)
  | rdir (name : String) (entries : List RemoteEntry)

/-- What `sftp.stat(remote_path)` reports for the call's remote path. -/
inductive StatResult where
  | statDir (entries : List RemoteEntry)
  | statFile
  | notFound
  | fail (e : PyError)

/-- Result oracles for the external operations whose outcome the plugin does
not control: whether a local path is a directory, and the outcomes of
`sftp.put`, `sftp.get` and `sftp.mkdir`. -/
structure SftpEnv where
  localIsDir : String → Bool
  putRes : String → String → Except PyError Unit
  getRes : String → String → Except PyError Unit
  mkdirRemoteRes : String → Except PyError Unit

/-- `Path(p).name`: the last non-empty POSIX component. -/
def baseName (p : String) : String :=
  ((p.splitOn "/").filter (fun s => !s.isEmpty)).getLastD ""

mutual

/-- One iteration of the `download_directory` loop (source lines 66-74): a
directory entry gets a matching local directory (`mkdir(parents=True,
exist_ok=True)`, an external local-filesystem effect modelled as always
succeeding) and a recursive download; a file entry is fetched with
`sftp.get`.  A raised error aborts the remaining iterations. -/
def downloadEntry (remotePath localPath : String) (env : SftpEnv) :
    RemoteEntry → Except PyError Unit × List SshOp
  | .rfile name =>
    let src := remotePath ++ "/" ++ name
    let dst := localPath ++ "/" ++ name
    (env.getRes src dst, [SshOp.getFile src dst])
  | .rdir name sub =>
    let r := remotePath ++ "/" ++ name
    let l := localPath ++ "/" ++ name
    let inner := download_directory r l sub env
    (inner.1, SshOp.mkdirLocal l :: inner.2)

/-- The `download_directory` loop over the listing, stopping at the first
raised error. -/
def downloadEntries (remotePath localPath : String) (env : SftpEnv) :
    List RemoteEntry → Except PyError Unit × List SshOp
  | [] => (Except.ok (), [])
  | e :: rest =>
    match downloadEntry remotePath localPath env e with
    | (Except.error err, tr) => (Except.error err, tr)
    | (Except.ok _, tr) =>
      let after := downloadEntries remotePath localPath env rest
      (after.1, tr ++ after.2)

/-- `download_directory` (source lines 64-74): list the remote directory and
mirror every entry. -/
def download_directory (remotePath localPath : String)
    (entries : List RemoteEntry) (env : SftpEnv) :
    Except PyError Unit × List SshOp :=
  let inner := downloadEntries remotePath localPath env entries
  (inner.1, SshOp.listRemote remotePath :: inner.2)

end

/-- `copy_remote_file` (source lines 76-104).  The SFTP session is opened by a
`with` block, so `closeSftp` is recorded on every exit path.  Upload
(`download=False`): probe the remote path, creating it when the probe raises
`FileNotFoundError` (any other probe error propagates uncaught); then a local
directory is rejected by `assert False` after an error log, and a local file
is put into the remote directory under its own name.  Download
(`download=True`): create the local directory, probe the remote path's mode,
and either mirror the directory tree or get the single file. -/
def copy_remote_file (env : SftpEnv) (stat : StatResult)
    (local_path remote_path : String) (download : Bool) :
    Except PyError Unit × List SshOp :=
  let body : Except PyError Unit × List SshOp :=
    if !download then
      let probe : Except PyError Unit × List SshOp :=
        match stat with
        | .notFound => (env.mkdirRemoteRes remote_path,
            [SshOp.statRemote remote_path, SshOp.mkdirRemote remote_path])
        | .fail e => (Except.error e, [SshOp.statRemote remote_path])
        | _ => (Except.ok (), [SshOp.statRemote remote_path])
      match probe with
      | (Except.error e, tr) => (Except.error e, tr)
      | (Except.ok _, tr) =>
        if env.localIsDir local_path then
          -- `error('Can not copy a directory from local to remote')` and
          -- `assert False`: the recursive upload routine is not wired in.
          (Except.error (PyError.assertionError AssertMsg.noMsg), tr)
        else
          let dst := remote_path ++ "/" ++ baseName local_path
          (env.putRes local_path dst, tr ++ [SshOp.putFile local_path dst])
    else
      let tr0 := [SshOp.mkdirLocal local_path, SshOp.statRemote remote_path]
      match stat with
      | .notFound => (Except.error PyError.fileNotFoundError, tr0)
      | .fail e => (Except.error e, tr0)
      | .statDir entries =>
        let inner := download_directory remote_path local_path entries env
        (inner.1, tr0 ++ inner.2)
      | .statFile =>
        let dst := local_path ++ "/" ++ baseName remote_path
        (env.getRes remote_path dst, tr0 ++ [SshOp.getFile remote_path dst])
  (body.1, SshOp.openSftp :: body.2 ++ [SshOp.closeSftp])

/-- `run_with_ssh_client` (source lines 26-42): create the client, set the
auto-add host key policy, then inside `try ... finally client.close()`
connect and run the callable.  The callable is an already-evaluated outcome
and trace; the `finally` records `closeClient` on every exit path. -/
def run_with_ssh_client (connectRes : Except PyError Unit)
    (callable : Except PyError Unit × List SshOp) :
    Except PyError Unit × List SshOp :=
  let prefixOps := [SshOp.createClient, SshOp.setPolicy, SshOp.connect]
  match connectRes with
  | Except.error e => (Except.error e, prefixOps ++ [SshOp.closeClient])
  | Except.ok _ => (callable.1, prefixOps ++ callable.2 ++ [SshOp.closeClient])

/-- A copy-files call after augmentation (`CopyFilesSshCall` in the source). -/
structure CopyFilesSshCall where
  user : String
  password : String
  host : String
  local_path : String
  remote_path : String
  download : Bool

/-- `make_copy_files_ssh_call` (source lines 106-108): run `copy_remote_file`
under `run_with_ssh_client`. -/
def make_copy_files_ssh_call (call : CopyFilesSshCall) (env : SftpEnv)
    (stat : StatResult) (connectRes : Except PyError Unit) :
    Except PyError Unit × List SshOp :=
  run_with_ssh_client connectRes
    (copy_remote_file env stat call.local_path call.remote_path call.download)

/-- The raw configuration mapping handed to `augment_copy_files_ssh_call`. -/
structure RawCopyFilesSshCall where
  user : PyVal
  password : PyVal
  host : PyVal
  local_path : PyVal
  remote_path : PyVal
  download : PyVal

/-- `default_copy_files_ssh_call` (source lines 17-24): the default template,
with `local_path` and `remote_path` absent (`None`). -/
def default_copy_files_ssh_call : RawCopyFilesSshCall :=
  { user := .vstr "${REMOTE_CMD_USER}",
    password := .vstr "${REMOTE_CMD_PASSWORD}",
    host := .vstr "${REMOTE_CMD_HOST}",
    local_path := .vnone,
    remote_path := .vnone,
    download := .vbool false }

/-- `augment_copy_files_ssh_call` (source lines 110-118): wrap a non-`None`
`local_path` in `Path` (a non-string argument raises `TypeError`); then call
`is_absolute` on it unconditionally — on a `None` value Python raises
`AttributeError` (`'NoneType' object has no attribute 'is_absolute'`), so the
guard never protects the next line; a relative path is resolved against the
project path; finally a non-`None` `remote_path` is wrapped in `Path`. -/
def augment_copy_files_ssh_call (call : RawCopyFilesSshCall) (path : String) :
    Except PyError RawCopyFilesSshCall :=
  let step1 : Except PyError RawCopyFilesSshCall :=
    match call.local_path with
    | .vnone => Except.ok call
    | .vstr s => Except.ok { call with local_path := .vstr s }
    | _ => Except.error (PyError.typeError "argument should be a str or an os.PathLike object")
  match step1 with
  | Except.error e => Except.error e
  | Except.ok call =>
    match call.local_path with
    | .vstr s =>
      let call :=
        if s.startsWith "/" then call
        else { call with local_path := .vstr (pyJoinPath path s) }
      match call.remote_path with
      | .vnone => Except.ok call
      | .vstr r => Except.ok { call with remote_path := .vstr r }
      | _ => Except.error (PyError.typeError "argument should be a str or an os.PathLike object")
    | _ => Except.error (PyError.attributeError "is_absolute")

/-! ### Helper accessors and concrete inputs -/

/-- The call returned by a successful `assert_response` (the specification as
mutated by execution). -/
def callAfter : Except PyError (RestCall × RequestRecord) → Option RestCall
  | Except.ok (c, _) => some c
  | Except.error _ => none

/-- The effective timeout of the dispatched request, when one was
dispatched. -/
def reqTimeoutOf : Except PyError (RestCall × RequestRecord) → Option Int
  | Except.ok (_, r) => some r.timeout
  | Except.error _ => none

/-- A well-formed augmented rest call with no body, files, multipart,
assertion or timeout, accepting status 200. -/
def baseCall : RestCall :=
  { base_url := "http://h", path := "/p", url := "http://h/p",
    method := Method.GET, data := none, files := none, multipart := none,
    timeout := 0, headers := [], verify := false, cert := none,
    response_type := RType.JSON, assertion := none, hide_logs := false,
    status_codes := [200] }

/-- A response with status 500 and a non-JSON empty body. -/
def resp500 : HttpResponse := { status_code := 500, text := "", json := none }

/-- A call with a configured string assertion, otherwise like `baseCall`. -/
def c1CallWithAssertion : RestCall :=
  { baseCall with assertion := some { value := .vstr "ok", only_defined := false } }

/-- `baseCall` with a positive timeout of 5 seconds. -/
def c2CallTimeout5 : RestCall := { baseCall with timeout := 5 }

/-- A response with status 200 and a non-JSON empty body. -/
def c2Resp200 : HttpResponse := { status_code := 200, text := "", json := none }

/-- A call asserting `value={"a": 1}` with `only_defined=False`. -/
def c3Call : RestCall :=
  { baseCall with
    assertion := some { value := .vdict [("a", .vint 1)], only_defined := false } }

/-- A 200 response whose parsed body is exactly the expected mapping
`{"a": 1}`. -/
def c3RespEqual : HttpResponse :=
  { status_code := 200, text := "\x7b\"a\": 1\x7d",
    json := some (.vdict [("a", .vint 1)]) }

/-- A 200 response whose parsed body happens to equal the *assertion mapping*
`{"value": {"a": 1}, "only_defined": false}` rather than the expected
value. -/
def c3RespAssertionShaped : HttpResponse :=
  { status_code := 200, text := "",
    json := some (.vdict
      [("value", .vdict [("a", .vint 1)]), ("only_defined", .vbool false)]) }

/-- An augmented file attachment triple, as stored in `call["files"]`. -/
def c4Tup : PyVal := .vtuple [.vstr "a.txt", .vfile "/proj/a.txt" "rb", .vstr "text/plain"]

/-- A call with one file attachment and an *empty* headers mapping. -/
def c4Call : RestCall := { baseCall with files := some [("f", c4Tup)] }

/-- A call with one file attachment and a headers mapping that does contain a
`Content-Type` entry. -/
def c4CallWithCT : RestCall :=
  { c4Call with headers := [("Content-Type", .vstr "application/json")] }

/-- The call as mutated by a successful `buildRequest` on `c4CallWithCT`:
`Content-Type` deleted from the headers. -/
def c4AfterCT : RestCall := { c4CallWithCT with headers := [] }

/-- The request `buildRequest` dispatches for `c4CallWithCT`. -/
def c4ReqCT : RequestRecord :=
  { url := "http://h/p", method := Method.GET, timeout := 10, headers := [],
    files := some [("f", c4Tup)], body := none, verify := false }

/-- A raw rest call template that passes every augmentation check, with the
assertion field left to vary. -/
def c5RawBase : RawRestCall :=
  { base_url := .vstr "http://h", path := .vstr "/p", url := .vnone,
    method := .vstr "GET", data := .vnone, files := .vnone,
    multipart := .vnone, timeout := .vint 0, headers := .vdict [],
    verify := .vbool false, cert := .vnone, response_type := .vstr "JSON",
    assertion := .vnone, hide_logs := .vbool false,
    status_codes := .vlist [.vint 200] }

/-- `c5RawBase` with a given assertion field. -/
def c5RawWith (a : PyVal) : RawRestCall := { c5RawBase with assertion := a }

/-- A call asserting `value={"a": 1}` with `only_defined=True`. -/
def c6Call : RestCall :=
  { baseCall with
    assertion := some { value := .vdict [("a", .vint 1)], only_defined := true } }

/-- A 200 response whose parsed body `{"a": 1, "b": 2}` has the declared key
with the expected value plus one extra key. -/
def c6Resp : HttpResponse :=
  { status_code := 200, text := "",
    json := some (.vdict [("a", .vint 1), ("b", .vint 2)]) }

/-- The request `buildRequest` dispatches for `c6Call`. -/
def c6Req : RequestRecord :=
  { url := "http://h/p", method := Method.GET, timeout := 10, headers := [],
    files := none, body := none, verify := false }

/-- An SFTP environment whose every local path is a directory and whose
remote operations all succeed. -/
def c8Env : SftpEnv :=
  { localIsDir := fun _ => true,
    putRes := fun _ _ => Except.ok (),
    getRes := fun _ _ => Except.ok (),
    mkdirRemoteRes := fun _ => Except.ok () }

/-- A multipart entry as augmentation stores it. -/
def c9Tup : PyVal := .vtuple [.vnone, .vstr "1", .vstr "application/json"]

/-- A call with one multipart entry, no files yet, and a headers mapping
containing `Content-Type`. -/
def c9Call : RestCall :=
  { baseCall with
    multipart := some [("k", c9Tup)],
    headers := [("Content-Type", .vstr "application/json")] }

/-- A 200 response with an empty body. -/
def c9Resp : HttpResponse := { status_code := 200, text := "", json := none }

/-- The call as mutated by executing `c9Call`: the multipart entry merged
into `files`, `Content-Type` deleted from `headers`. -/
def c9After : RestCall :=
  { c9Call with files := some [("k", c9Tup)], headers := [] }

/-- The request dispatched for `c9Call`. -/
def c9Req : RequestRecord :=
  { url := "http://h/p", method := Method.GET, timeout := 10, headers := [],
    files := some [("k", c9Tup)], body := none, verify := false }

/-! ### Shared lemmas -/

/-- A lookup misses exactly when the key is absent. -/
theorem dictLookup_eq_none_iff (m : List (String × PyVal)) (k : String) :
    dictLookup m k = none ↔ k ∉ m.map Prod.fst := by
  induction m with
  | nil => simp [dictLookup]
  | cons kv rest ih =>
    obtain ⟨k', v'⟩ := kv
    by_cases h : (k' == k) = true
    · have heq : k' = k := by simpa using h
      simp [dictLookup, h, heq]
    · have hne : k ≠ k' := fun hh => (by simpa using h : k' ≠ k) hh.symm
      simp [dictLookup, h, ih, hne]

/-- `del d[k]` raises `KeyError` exactly when the lookup misses. -/
theorem delKey_eq_none_iff (m : List (String × PyVal)) (k : String) :
    delKey m k = none ↔ dictLookup m k = none := by
  induction m with
  | nil => simp [delKey, dictLookup]
  | cons kv rest ih =>
    obtain ⟨k', v'⟩ := kv
    by_cases h : (k' == k) = true
    · simp [delKey, dictLookup, h]
    · cases hd : delKey rest k with
      | none =>
        have : dictLookup rest k = none := ih.mp hd
        simp [delKey, dictLookup, h, hd, this]
      | some rest' =>
        have : ¬ dictLookup rest k = none := fun hc => by
          rw [ih.mpr hc] at hd
          exact Option.noConfusion hd
        simp [delKey, dictLookup, h, hd, this]

/-- After deleting a key from a dictionary with pairwise distinct keys, the
lookup for that key misses. -/
theorem dictLookup_delKey_self (m m' : List (String × PyVal)) (k : String)
    (hnd : (m.map Prod.fst).Nodup) (h : delKey m k = some m') :
    dictLookup m' k = none := by
  induction m generalizing m' with
  | nil => simp [delKey] at h
  | cons kv rest ih =>
    obtain ⟨k', v'⟩ := kv
    simp only [List.map_cons, List.nodup_cons] at hnd
    by_cases hk : (k' == k) = true
    · have heq : k' = k := by simpa using hk
      simp only [delKey, hk, if_pos] at h
      injection h with h1
      subst h1
      rw [dictLookup_eq_none_iff]
      rw [← heq]
      exact hnd.1
    · simp only [delKey, hk] at h
      cases hd : delKey rest k with
      | none => rw [hd] at h; exact Option.noConfusion h
      | some rest' =>
        rw [hd] at h
        injection h with h1
        subst h1
        simp [dictLookup, hk, ih rest' hnd.2 hd]

/-- `mergeMultipart` only rewrites the `files` field. -/
theorem mergeMultipart_eq (call : RestCall) :
    mergeMultipart call = { call with files := (mergeMultipart call).files } := by
  obtain ⟨bu, p, u, me, d, f, mp, t, hd, v, ce, rt, a, hl, sc⟩ := call
  cases mp with
  | none => rfl
  | some l =>
    by_cases h : l.isEmpty <;> simp [mergeMultipart, h]

/-- The headers are untouched by the multipart merge. -/
theorem mergeMultipart_headers (call : RestCall) :
    (mergeMultipart call).headers = call.headers := by
  rw [mergeMultipart_eq]


/-- Inversion of a successful `buildRequest`: the returned call agrees with
the input call on every field except `files` (which holds the multipart
merge) and `headers` (from which `Content-Type` was deleted when files are
present); the configured timeout was necessarily `0`, and the dispatched
request carries the mutated headers and the hard-coded timeout `10`. -/
theorem buildRequest_ok_spec (call c' : RestCall) (req : RequestRecord)
    (h : buildRequest call = Except.ok (c', req)) :
    c'.base_url = call.base_url ∧ c'.path = call.path ∧ c'.url = call.url ∧
    c'.method = call.method ∧ c'.data = call.data ∧
    c'.multipart = call.multipart ∧ c'.timeout = call.timeout ∧
    c'.verify = call.verify ∧ c'.cert = call.cert ∧
    c'.response_type = call.response_type ∧ c'.assertion = call.assertion ∧
    c'.hide_logs = call.hide_logs ∧ c'.status_codes = call.status_codes ∧
    c'.files = (mergeMultipart call).files ∧
    call.timeout = 0 ∧ req.headers = c'.headers ∧ req.timeout = 10 ∧
    (filesTruthy (mergeMultipart call).files = true →
      delKey call.headers "Content-Type" = some c'.headers) ∧
    (filesTruthy (mergeMultipart call).files = false →
      c'.headers = call.headers) := by
  have hF := mergeMultipart_eq call
  set F := (mergeMultipart call).files with hFdef
  simp only [buildRequest] at h
  rw [hF] at h
  dsimp only at h
  by_cases hft : filesTruthy F = true
  · rw [if_pos hft] at h
    cases hdel : delKey call.headers "Content-Type" with
    | none => rw [hdel] at h; exact Except.noConfusion h
    | some hs =>
      rw [hdel] at h
      simp only [finishRequest] at h
      by_cases hto : (call.timeout != 0) = true
      · rw [if_pos hto] at h; exact Except.noConfusion h
      · rw [if_neg hto] at h
        injection h with h1
        injection h1 with hc hr
        subst hc
        subst hr
        have ht0 : call.timeout = 0 := by simpa using hto
        refine ⟨rfl, rfl, rfl, rfl, rfl, rfl, rfl, rfl, rfl, rfl, rfl, rfl, rfl,
          rfl, ht0, rfl, rfl, fun _ => rfl, fun hcontra => ?_⟩
        rw [hcontra] at hft
        exact Bool.noConfusion hft
  · rw [if_neg hft] at h
    cases hd : call.data with
    | some d =>
      rw [hd] at h
      simp only [finishRequest] at h
      by_cases hto : (call.timeout != 0) = true
      · rw [if_pos hto] at h; exact Except.noConfusion h
      · rw [if_neg hto] at h
        injection h with h1
        injection h1 with hc hr
        subst hc
        subst hr
        have ht0 : call.timeout = 0 := by simpa using hto
        exact ⟨rfl, rfl, rfl, rfl, rfl, rfl, rfl, rfl, rfl, rfl, rfl, rfl, rfl,
          rfl, ht0, rfl, rfl, fun htrue => absurd htrue hft, fun _ => rfl⟩
    | none =>
      rw [hd] at h
      simp only [finishRequest] at h
      by_cases hto : (call.timeout != 0) = true
      · rw [if_pos hto] at h; exact Except.noConfusion h
      · rw [if_neg hto] at h
        injection h with h1
        injection h1 with hc hr
        subst hc
        subst hr
        have ht0 : call.timeout = 0 := by simpa using hto
        exact ⟨rfl, rfl, rfl, rfl, rfl, rfl, rfl, rfl, rfl, rfl, rfl, rfl, rfl,
          rfl, ht0, rfl, rfl, fun htrue => absurd htrue hft, fun _ => rfl⟩

/-- Reduction of `assert_response` under a known successful `buildRequest`. -/
theorem assert_response_of_buildRequest_ok (call : RestCall)
    (resp : HttpResponse) (c' : RestCall) (req : RequestRecord)
    (hb : buildRequest call = Except.ok (c', req)) :
    assert_response call resp =
      if c'.status_codes.contains resp.status_code then
        match c'.assertion with
        | none => Except.ok (c', req)
        | some a =>
          match bodyAssert a resp with
          | Except.ok _ => Except.ok (c', req)
          | Except.error e => Except.error e
      else Except.error (PyError.assertionError AssertMsg.noMsg) := by
  unfold assert_response
  rw [hb]

/-- A successful `assert_response` passes the result of `buildRequest`
through unchanged. -/
theorem assert_response_ok_build (call : RestCall) (resp : HttpResponse)
    (c' : RestCall) (req : RequestRecord)
    (h : assert_response call resp = Except.ok (c', req)) :
    buildRequest call = Except.ok (c', req) := by
  cases hb : buildRequest call with
  | error e =>
    unfold assert_response at h
    rw [hb] at h
    exact Except.noConfusion h
  | ok cr =>
    obtain ⟨c'', req''⟩ := cr
    rw [assert_response_of_buildRequest_ok call resp c'' req'' hb] at h
    by_cases hs : (c''.status_codes.contains resp.status_code) = true
    · rw [if_pos hs] at h
      cases ha : c''.assertion with
      | none =>
        rw [ha] at h
        injection h with h1
        rw [h1]
      | some a =>
        rw [ha] at h
        dsimp only at h
        cases hba : bodyAssert a resp with
        | ok u => rw [hba] at h; injection h with h1; rw [h1]
        | error e => rw [hba] at h; exact Except.noConfusion h
    · rw [if_neg hs] at h
      exact Except.noConfusion h

/-- The `only_defined=True` loop passes exactly when every declared key is
present in the body with a Python-equal value. -/
theorem onlyDefinedCheck_ok_iff (items bm : List (String × PyVal)) :
    onlyDefinedCheck items bm = Except.ok () ↔
      ∀ kv ∈ items, ∃ w, dictLookup bm kv.1 = some w ∧ pyEq w kv.2 = true := by
  induction items with
  | nil => simp [onlyDefinedCheck]
  | cons kv rest ih =>
    obtain ⟨k, v⟩ := kv
    cases hw : dictLookup bm k with
    | none =>
      simp only [onlyDefinedCheck, hw]
      constructor
      · intro hc; exact Except.noConfusion hc
      · intro hall
        obtain ⟨w, hw', _⟩ := hall (k, v) (List.mem_cons_self _ _)
        rw [hw] at hw'
        exact Option.noConfusion hw'
    | some w =>
      by_cases hp : pyEq w v = true
      · simp only [onlyDefinedCheck, hw, if_pos hp]
        rw [ih]
        constructor
        · intro hrest kv' hkv'
          rcases List.mem_cons.mp hkv' with heq | hmem
          · subst heq
            exact ⟨w, hw, hp⟩
          · exact hrest kv' hmem
        · intro hall kv' hkv'
          exact hall kv' (List.mem_cons_of_mem _ hkv')
      · simp only [onlyDefinedCheck, hw, if_neg hp]
        constructor
        · intro hc; exact Except.noConfusion hc
        · intro hall
          obtain ⟨w', hw', hp'⟩ := hall (k, v) (List.mem_cons_self _ _)
          rw [hw] at hw'
          injection hw' with hww
          rw [← hww] at hp'
          exact absurd hp' hp

/-- When the `only_defined=True` loop fails blaming an unequal key, that key
is declared, present in the body with the blamed actual value, and the values
really differ. -/
theorem onlyDefinedCheck_keyNotEqual (items bm : List (String × PyVal))
    (k : String) (v w : PyVal)
    (h : onlyDefinedCheck items bm
      = Except.error (PyError.assertionError (AssertMsg.keyNotEqual k v w))) :
    (k, v) ∈ items ∧ dictLookup bm k = some w ∧ pyEq w v = false := by
  induction items with
  | nil => exact Except.noConfusion h
  | cons kv rest ih =>
    obtain ⟨k', v'⟩ := kv
    cases hw : dictLookup bm k' with
    | none =>
      simp only [onlyDefinedCheck, hw] at h
      injection h with h1
      injection h1 with h2
      exact AssertMsg.noConfusion h2
    | some w' =>
      simp only [onlyDefinedCheck, hw] at h
      by_cases hp : pyEq w' v' = true
      · rw [if_pos hp] at h
        obtain ⟨hmem, hlk, hne⟩ := ih h
        exact ⟨List.mem_cons_of_mem _ hmem, hlk, hne⟩
      · rw [if_neg hp] at h
        injection h with h1
        injection h1 with h2
        injection h2 with hk hv hwq
        subst hk
        subst hv
        subst hwq
        exact ⟨List.mem_cons_self _ _, hw, Bool.not_eq_true _ ▸ hp⟩

/-- When the `only_defined=True` loop fails blaming a missing key, that key
is declared and absent from the body. -/
theorem onlyDefinedCheck_keyNotFound (items bm : List (String × PyVal))
    (k : String)
    (h : onlyDefinedCheck items bm
      = Except.error (PyError.assertionError (AssertMsg.keyNotFound k))) :
    dictLookup bm k = none ∧ ∃ v, (k, v) ∈ items := by
  induction items with
  | nil => exact Except.noConfusion h
  | cons kv rest ih =>
    obtain ⟨k', v'⟩ := kv
    cases hw : dictLookup bm k' with
    | none =>
      simp only [onlyDefinedCheck, hw] at h
      injection h with h1
      injection h1 with h2
      injection h2 with hk
      subst hk
      exact ⟨hw, v', List.mem_cons_self _ _⟩
    | some w' =>
      simp only [onlyDefinedCheck, hw] at h
      by_cases hp : pyEq w' v' = true
      · rw [if_pos hp] at h
        obtain ⟨hlk, v'', hmem⟩ := ih h
        exact ⟨hlk, v'', List.mem_cons_of_mem _ hmem⟩
      · rw [if_neg hp] at h
        injection h with h1
        injection h1 with h2
        exact AssertMsg.noConfusion h2

/-! ### C1 -/

/-- C1: the claim says `make_rest_call` logs a diagnostic and re-raises the
original assertion failure, in particular also when no body assertion is
configured.  The code contradicts its own docstring (`Raises AssertionError
If the response is not as expected`): `raise e` sits inside
`if call["assertion"] is not None`, so for a call with no assertion whose
status-code check fails, `assert_response` raises an `AssertionError` but
`make_rest_call` swallows it and returns normally.  When an assertion is
configured, the failure is re-raised as claimed. -/
theorem make_rest_call_swallows_assertion_failure_without_assertion :
    assert_response baseCall resp500
      = Except.error (PyError.assertionError AssertMsg.noMsg) ∧
    make_rest_call baseCall resp500 = Except.ok () ∧
    make_rest_call c1CallWithAssertion resp500
      = Except.error (PyError.assertionError AssertMsg.noMsg) := by
  refine ⟨rfl, rfl, rfl⟩

/-! ### C2 -/

/-- C2: the claim says timeout `0` uses the transport default, a positive
timeout overrides it, and the request is dispatched successfully in both
cases.  In the code every dispatch expression passes the hard-coded
`timeout=10`, so (a) a positive configured timeout adds a second `timeout`
keyword argument and the call expression raises `TypeError` — no request is
dispatched at all — and (b) timeout `0` dispatches with the hard-coded `10`,
not the transport default. -/
theorem timeout_keyword_collides_with_hardcoded_timeout :
    assert_response c2CallTimeout5 c2Resp200
      = Except.error
          (PyError.typeError "got multiple values for keyword argument timeout") ∧
    reqTimeoutOf (assert_response baseCall c2Resp200) = some 10 := by
  refine ⟨rfl, rfl⟩

/-! ### C3 -/

/-- C3: the claim says `only_defined=false` passes exactly when the parsed
body equals the assertion's `value` field.  The code compares
`response.json()` against `call["assertion"]` — the whole assertion mapping —
so a body equal to the expected value fails, and the bodies that pass are
those shaped like `{"value": ..., "only_defined": ...}`. -/
theorem full_equality_branch_compares_whole_assertion_mapping :
    assert_response c3Call c3RespEqual
      = Except.error (PyError.assertionError AssertMsg.noMsg) ∧
    (callAfter (assert_response c3Call c3RespAssertionShaped)).isSome = true := by
  refine ⟨rfl, rfl⟩

/-! ### C4 -/

/-- C4 counterexample: for a call with a file attachment and an *empty*
headers mapping — a case the claim explicitly covers — the request never
leaves: `del data["headers"]["Content-Type"]` raises `KeyError` and nothing
is dispatched, so the claimed removal guarantee does not hold by a dispatched
request for every supplied headers mapping. -/
theorem content_type_deletion_raises_keyerror_on_empty_headers :
    buildRequest c4Call = Except.error (PyError.keyError "Content-Type") ∧
    ∀ (c' : RestCall) (req : RequestRecord),
      ¬ buildRequest c4Call = Except.ok (c', req) := by
  refine ⟨rfl, ?_⟩
  intro c' req h
  exact Except.noConfusion h

/-- C4 amended: when a call has file/multipart attachments after the merge,
then (a) if a request is dispatched at all, its headers carry no
`Content-Type` entry (for a well-formed headers dictionary, i.e. one without
duplicate keys); and (b) if the caller's headers lack a `Content-Type` key —
e.g. an empty mapping — the unguarded `del` raises `KeyError` and no request
is dispatched. -/
theorem dispatched_request_never_carries_content_type :
    ∀ (call : RestCall),
      (∀ (c' : RestCall) (req : RequestRecord),
        (call.headers.map Prod.fst).Nodup →
        buildRequest call = Except.ok (c', req) →
        filesTruthy (mergeMultipart call).files = true →
        dictLookup req.headers "Content-Type" = none) ∧
      (filesTruthy (mergeMultipart call).files = true →
        dictLookup call.headers "Content-Type" = none →
        buildRequest call = Except.error (PyError.keyError "Content-Type")) := by
  intro call
  constructor
  · intro c' req hnd hok hft
    obtain ⟨_, _, _, _, _, _, _, _, _, _, _, _, _, _, _, hreqh, _, hdel, _⟩ :=
      buildRequest_ok_spec call c' req hok
    rw [hreqh]
    exact dictLookup_delKey_self call.headers c'.headers "Content-Type" hnd (hdel hft)
  · intro hft hlk
    have hd : delKey call.headers "Content-Type" = none :=
      (delKey_eq_none_iff call.headers "Content-Type").mpr hlk
    have hF := mergeMultipart_eq call
    simp only [buildRequest]
    rw [hF]
    dsimp only
    rw [if_pos hft]
    rw [hd]

theorem dispatched_request_never_carries_content_type_witness :
    ((c4CallWithCT.headers.map Prod.fst).Nodup ∧
      buildRequest c4CallWithCT = Except.ok (c4AfterCT, c4ReqCT) ∧
      filesTruthy (mergeMultipart c4CallWithCT).files = true) ∧
    dictLookup c4ReqCT.headers "Content-Type" = none :=
  ⟨⟨List.nodup_singleton "Content-Type", rfl, rfl⟩,
    (dispatched_request_never_carries_content_type c4CallWithCT).1 c4AfterCT c4ReqCT
      (List.nodup_singleton "Content-Type") rfl rfl⟩

/-! ### C5 -/

/-- C5 counterexample: the claim says augmentation accepts a sequence-valued
assertion.  `augment_rest_call` rejects it: the value-kind check only admits
strings and mappings. -/
theorem augment_rejects_sequence_assertion_value :
    augment_rest_call
      (c5RawWith (.vdict [("value", .vlist [.vint 1]), ("only_defined", .vbool false)]))
      "/proj"
      = Except.error (PyError.valueError "Assertion must be a string or a dict.") := by
  rfl

/-- C5 amended: augmentation rejects every sequence-valued assertion with
`ValueError("Assertion must be a string or a dict.")`; and were the executor's
sequence branch reached directly, it compares the parsed body against the
whole assertion mapping, so no sequence-shaped body can ever pass it. -/
theorem sequence_assertion_rejected_and_unpassable :
    ∀ (xs : List PyVal) (path : String),
      augment_rest_call
        (c5RawWith (.vdict [("value", .vlist xs), ("only_defined", .vbool false)]))
        path
        = Except.error (PyError.valueError "Assertion must be a string or a dict.") ∧
    ∀ (ys : List PyVal) (od : Bool) (t : String) (n : Int),
      bodyAssert { value := .vlist xs, only_defined := od }
        { status_code := n, text := t, json := some (.vlist ys) }
        = Except.error (PyError.assertionError AssertMsg.noMsg) := by
  intro xs path
  exact ⟨rfl, fun ys od t n => rfl⟩

/-! ### C6 -/

/-- C6: with a mapping-valued assertion and `only_defined=true`, execution
checks exactly the declared keys against the parsed body: it succeeds iff
every declared key is present with a Python-equal value (extra body keys are
ignored); a failure blaming an unequal key really names a declared key whose
body value differs, and a failure blaming a missing key really names a
declared key absent from the body. -/
theorem only_defined_checks_exactly_declared_keys :
    ∀ (call : RestCall) (resp : HttpResponse) (items bm : List (String × PyVal))
      (c' : RestCall) (req : RequestRecord),
      call.assertion = some { value := PyVal.vdict items, only_defined := true } →
      resp.json = some (PyVal.vdict bm) →
      buildRequest call = Except.ok (c', req) →
      call.status_codes.contains resp.status_code = true →
      ((assert_response call resp = Except.ok (c', req)) ↔
        ∀ kv ∈ items, ∃ w, dictLookup bm kv.1 = some w ∧ pyEq w kv.2 = true) ∧
      (∀ (k : String) (v w : PyVal),
        assert_response call resp
            = Except.error (PyError.assertionError (AssertMsg.keyNotEqual k v w)) →
        (k, v) ∈ items ∧ dictLookup bm k = some w ∧ pyEq w v = false) ∧
      (∀ (k : String),
        assert_response call resp
            = Except.error (PyError.assertionError (AssertMsg.keyNotFound k)) →
        dictLookup bm k = none ∧ ∃ v, (k, v) ∈ items) := by
  intro call resp items bm c' req ha hj hb hs
  obtain ⟨_, _, _, _, _, _, _, _, _, _, hassert, _, hstatus, _, _, _, _, _, _⟩ :=
    buildRequest_ok_spec call c' req hb
  have hA : c'.assertion = some { value := PyVal.vdict items, only_defined := true } := by
    rw [hassert, ha]
  have hS : c'.status_codes.contains resp.status_code = true := by
    rw [hstatus]; exact hs
  have hbody : bodyAssert { value := PyVal.vdict items, only_defined := true } resp
      = onlyDefinedCheck items bm := by
    simp [bodyAssert, hj]
  have hred : assert_response call resp =
      match onlyDefinedCheck items bm with
      | Except.ok _ => Except.ok (c', req)
      | Except.error e => Except.error e := by
    rw [assert_response_of_buildRequest_ok call resp c' req hb, if_pos hS, hA]
    dsimp only
    rw [hbody]
  refine ⟨?_, ?_, ?_⟩
  · rw [hred]
    cases hc : onlyDefinedCheck items bm with
    | ok u =>
      have hall := (onlyDefinedCheck_ok_iff items bm).mp (by rw [hc])
      exact iff_of_true rfl hall
    | error e =>
      refine iff_of_false (fun hcontra => Except.noConfusion hcontra) ?_
      intro hall
      have : onlyDefinedCheck items bm = Except.ok () :=
        (onlyDefinedCheck_ok_iff items bm).mpr hall
      rw [this] at hc
      exact Except.noConfusion hc
  · intro k v w hkne
    rw [hred] at hkne
    cases hc : onlyDefinedCheck items bm with
    | ok u => rw [hc] at hkne; exact Except.noConfusion hkne
    | error e =>
      rw [hc] at hkne
      injection hkne with h1
      rw [h1] at hc
      exact onlyDefinedCheck_keyNotEqual items bm k v w hc
  · intro k hknf
    rw [hred] at hknf
    cases hc : onlyDefinedCheck items bm with
    | ok u => rw [hc] at hknf; exact Except.noConfusion hknf
    | error e =>
      rw [hc] at hknf
      injection hknf with h1
      rw [h1] at hc
      exact onlyDefinedCheck_keyNotFound items bm k hc

theorem only_defined_checks_exactly_declared_keys_witness :
    (c6Call.assertion
        = some { value := PyVal.vdict [("a", PyVal.vint 1)], only_defined := true } ∧
      c6Resp.json = some (PyVal.vdict [("a", PyVal.vint 1), ("b", PyVal.vint 2)]) ∧
      buildRequest c6Call = Except.ok (c6Call, c6Req) ∧
      c6Call.status_codes.contains c6Resp.status_code = true) ∧
    (((assert_response c6Call c6Resp = Except.ok (c6Call, c6Req)) ↔
        ∀ kv ∈ [("a", PyVal.vint 1)], ∃ w,
          dictLookup [("a", PyVal.vint 1), ("b", PyVal.vint 2)] kv.1 = some w ∧
          pyEq w kv.2 = true) ∧
      (∀ (k : String) (v w : PyVal),
        assert_response c6Call c6Resp
            = Except.error (PyError.assertionError (AssertMsg.keyNotEqual k v w)) →
        (k, v) ∈ [("a", PyVal.vint 1)] ∧
        dictLookup [("a", PyVal.vint 1), ("b", PyVal.vint 2)] k = some w ∧
        pyEq w v = false) ∧
      (∀ (k : String),
        assert_response c6Call c6Resp
            = Except.error (PyError.assertionError (AssertMsg.keyNotFound k)) →
        dictLookup [("a", PyVal.vint 1), ("b", PyVal.vint 2)] k = none ∧
        ∃ v, (k, v) ∈ [("a", PyVal.vint 1)])) :=
  ⟨⟨rfl, rfl, rfl, rfl⟩,
    only_defined_checks_exactly_declared_keys c6Call c6Resp
      [("a", PyVal.vint 1)] [("a", PyVal.vint 1), ("b", PyVal.vint 2)]
      c6Call c6Req rfl rfl rfl rfl⟩

/-! ### C7 -/

/-- The last element of a nonempty trace ending in a fixed operation. -/
theorem getLast?_cons_append_singleton {α : Type} (x a : α) (l : List α) :
    (x :: (l ++ [a])).getLast? = some a := by
  have h : x :: (l ++ [a]) = (x :: l) ++ a :: [] := by simp
  rw [h, List.getLast?_append_cons]
  rfl

/-- C7: for every copy-files call — whatever the SFTP environment, the stat
outcome of the remote path and the outcome of `connect` — the last operation
of the execution trace is closing the SSH client: the session is closed
before control returns on every exit path, including a failing `connect` and
a raising transfer. -/
theorem ssh_session_closed_on_every_exit_path :
    ∀ (call : CopyFilesSshCall) (env : SftpEnv) (stat : StatResult)
      (connectRes : Except PyError Unit),
      (make_copy_files_ssh_call call env stat connectRes).2.getLast?
        = some SshOp.closeClient := by
  intro call env stat connectRes
  unfold make_copy_files_ssh_call run_with_ssh_client
  cases connectRes <;> simp [getLast?_cons_append_singleton]

/-! ### C8 -/

/-- C8: uploading (`download=False`) a local path that is a directory always
ends in a raised error — specifically the bare `assert False` when the probe
of the remote path did not itself raise — and the operation trace contains no
file transfer (`put` or `get`) whatsoever. -/
theorem directory_upload_fails_fast_without_transfer :
    ∀ (env : SftpEnv) (stat : StatResult) (localPath remotePath : String),
      env.localIsDir localPath = true →
      (∃ e, (copy_remote_file env stat localPath remotePath false).1 = Except.error e) ∧
      (∀ src dst,
        SshOp.putFile src dst ∉ (copy_remote_file env stat localPath remotePath false).2) ∧
      (∀ src dst,
        SshOp.getFile src dst ∉ (copy_remote_file env stat localPath remotePath false).2) ∧
      (copy_remote_file env StatResult.statFile localPath remotePath false).1
        = Except.error (PyError.assertionError AssertMsg.noMsg) := by
  intro env stat localPath remotePath hdir
  unfold copy_remote_file
  cases stat <;> cases env.mkdirRemoteRes remotePath <;> simp [hdir]

theorem directory_upload_fails_fast_without_transfer_witness :
    c8Env.localIsDir "/proj/dir" = true ∧
    ((∃ e, (copy_remote_file c8Env StatResult.statFile "/proj/dir" "/remote" false).1
        = Except.error e) ∧
      (∀ src dst,
        SshOp.putFile src dst
          ∉ (copy_remote_file c8Env StatResult.statFile "/proj/dir" "/remote" false).2) ∧
      (∀ src dst,
        SshOp.getFile src dst
          ∉ (copy_remote_file c8Env StatResult.statFile "/proj/dir" "/remote" false).2) ∧
      (copy_remote_file c8Env StatResult.statFile "/proj/dir" "/remote" false).1
        = Except.error (PyError.assertionError AssertMsg.noMsg)) :=
  ⟨rfl, directory_upload_fails_fast_without_transfer c8Env StatResult.statFile
    "/proj/dir" "/remote" rfl⟩

/-! ### C9 -/

/-- C9 counterexample: executing a call with a multipart entry changes the
specification: its `files` field gains the merged entry (it was `None`) and
its `headers` field — aliased by the request keyword arguments — loses the
`Content-Type` entry.  So headers and files are not the same after execution
as when augmentation completed. -/
theorem execute_mutates_files_and_headers_of_call :
    (callAfter (assert_response c9Call c9Resp)).map RestCall.files
      ≠ some c9Call.files ∧
    (callAfter (assert_response c9Call c9Resp)).map RestCall.headers
      ≠ some c9Call.headers := by
  constructor
  · intro h
    injection h with h1
    exact Option.noConfusion h1
  · intro h
    injection h with h1
    exact List.noConfusion h1

/-- C9 amended: a successful execution leaves every field of the call
specification unchanged — url, method, data, timeout, headers flags,
assertion, status codes, multipart — *except* `files`, which receives the
multipart entries merged over it, and `headers`, from which the
`Content-Type` entry is deleted in place when attachments are present. -/
theorem execute_preserves_call_except_merge_and_header_deletion :
    ∀ (call : RestCall) (resp : HttpResponse) (c' : RestCall) (req : RequestRecord),
      assert_response call resp = Except.ok (c', req) →
      c'.base_url = call.base_url ∧ c'.path = call.path ∧ c'.url = call.url ∧
      c'.method = call.method ∧ c'.data = call.data ∧
      c'.multipart = call.multipart ∧ c'.timeout = call.timeout ∧
      c'.verify = call.verify ∧ c'.cert = call.cert ∧
      c'.response_type = call.response_type ∧ c'.assertion = call.assertion ∧
      c'.hide_logs = call.hide_logs ∧ c'.status_codes = call.status_codes ∧
      c'.files = (mergeMultipart call).files ∧
      (filesTruthy (mergeMultipart call).files = true →
        delKey call.headers "Content-Type" = some c'.headers) ∧
      (filesTruthy (mergeMultipart call).files = false →
        c'.headers = call.headers) := by
  intro call resp c' req h
  obtain ⟨h1, h2, h3, h4, h5, h6, h7, h8, h9, h10, h11, h12, h13, h14, _, _, _,
    h18, h19⟩ := buildRequest_ok_spec call c' req (assert_response_ok_build call resp c' req h)
  exact ⟨h1, h2, h3, h4, h5, h6, h7, h8, h9, h10, h11, h12, h13, h14, h18, h19⟩

theorem execute_preserves_call_except_merge_and_header_deletion_witness :
    assert_response c9Call c9Resp = Except.ok (c9After, c9Req) ∧
    (c9After.base_url = c9Call.base_url ∧ c9After.path = c9Call.path ∧
      c9After.url = c9Call.url ∧ c9After.method = c9Call.method ∧
      c9After.data = c9Call.data ∧ c9After.multipart = c9Call.multipart ∧
      c9After.timeout = c9Call.timeout ∧ c9After.verify = c9Call.verify ∧
      c9After.cert = c9Call.cert ∧ c9After.response_type = c9Call.response_type ∧
      c9After.assertion = c9Call.assertion ∧ c9After.hide_logs = c9Call.hide_logs ∧
      c9After.status_codes = c9Call.status_codes ∧
      c9After.files = (mergeMultipart c9Call).files ∧
      (filesTruthy (mergeMultipart c9Call).files = true →
        delKey c9Call.headers "Content-Type" = some c9After.headers) ∧
      (filesTruthy (mergeMultipart c9Call).files = false →
        c9After.headers = c9Call.headers)) :=
  ⟨rfl, execute_preserves_call_except_merge_and_header_deletion
    c9Call c9Resp c9After c9Req rfl⟩

/-! ### C10 -/

/-- C10: augmenting a copy-files call whose `local_path` is `None` — the
default template's value — raises before completing: the `is None` guard only
wraps the `Path(...)` conversion, and the following unconditional
`call["local_path"].is_absolute()` raises `AttributeError` on `None`.  It is
an `AttributeError`, not a `ValidationError`/`ValueError` naming the
field. -/
theorem augment_none_local_path_raises_attribute_error :
    ∀ (call : RawCopyFilesSshCall) (path : String),
      call.local_path = PyVal.vnone →
      augment_copy_files_ssh_call call path
        = Except.error (PyError.attributeError "is_absolute") := by
  intro call path h
  simp [augment_copy_files_ssh_call, h]

theorem augment_none_local_path_raises_attribute_error_witness :
    default_copy_files_ssh_call.local_path = PyVal.vnone ∧
    augment_copy_files_ssh_call default_copy_files_ssh_call "/proj"
      = Except.error (PyError.attributeError "is_absolute") :=
  ⟨rfl, augment_none_local_path_raises_attribute_error
    default_copy_files_ssh_call "/proj" rfl⟩

end TestTool
